import Mathlib

/-!
Verification of the azure-ai-proxy interception pipeline.

The Go source (internal/proxy/proxy.go, internal/logging/logger.go) is
shallowly embedded below.  Go strings are Lean `String`s; byte slices in the
proxy only ever hold textual payloads, so they are modelled as `String` too.
The Go standard-library pieces the code leans on (`strings.Split`,
`strings.HasPrefix`, `strings.TrimPrefix`, `strings.Contains`,
`encoding/json`, `http.Header.Get`) are modelled faithfully as executable
Lean functions over `List Char`.
-/

/-! ### Go `strings` helpers -/

/-- `strings.Split s "\n"` on the underlying characters: splits at every
newline and keeps empty fields, so a trailing newline yields a final empty
line, and the empty string yields one empty line. -/
def splitNlChars : List Char → List (List Char)
  | [] => [[]]
  | c :: cs =>
    match splitNlChars cs with
    | [] => [[c]]
    | h :: t => if c = '\n' then [] :: h :: t else (c :: h) :: t

/-- The lines of `s` as produced by Go's `strings.Split(s, "\n")`. -/
def goLines (s : String) : List String :=
  (splitNlChars s.data).map String.mk

/-- Whether `pat` occurs at the head of `s` (Go `strings.HasPrefix`). -/
def startsWithChars : List Char → List Char → Bool
  | _, [] => true
  | [], _ :: _ => false
  | c :: cs, p :: ps => c = p && startsWithChars cs ps

/-- Go `strings.HasPrefix s pat`. -/
def goStartsWith (s pat : String) : Bool :=
  startsWithChars s.data pat.data

/-- Go `strings.TrimPrefix s pat`: removes one leading occurrence of `pat`
when present, otherwise returns `s` unchanged. -/
def goTrimLeading (s pat : String) : String :=
  if goStartsWith s pat then String.mk (s.data.drop pat.data.length) else s

/-- Whether `pat` occurs as a contiguous substring (Go `strings.Contains`). -/
def containsSubChars : List Char → List Char → Bool
  | [], pat => pat.isEmpty
  | c :: cs, pat => startsWithChars (c :: cs) pat || containsSubChars cs pat

/-- Go `strings.Contains s pat`. -/
def goContains (s pat : String) : Bool :=
  containsSubChars s.data pat.data

/-- Concatenation of a list of strings, in order. -/
def concatAll : List String → String
  | [] => ""
  | h :: t => h ++ concatAll t

/-! ### Dynamic JSON values and the `encoding/json` model

Go decodes into `interface` values: JSON objects become maps, arrays become
slices, strings become strings, numbers become `float64`, `true`/`false`
become booleans and `null` becomes `nil`.  No claim depends on numeric
values, so a number is kept as its source lexeme. -/

inductive Json where
  | null
  | bool (b : Bool)
  | num (lexeme : String)
  | str (s : String)
  | arr (elems : List Json)
  | obj (fields : List (String × Json))

/-- Map insertion with Go semantics: a repeated key overwrites the earlier
binding. -/
def insertField : List (String × Json) → String → Json → List (String × Json)
  | [], k, v => [(k, v)]
  | (k0, v0) :: t, k, v =>
    if k0 = k then (k, v) :: t else (k0, v0) :: insertField t k v

/-- Map lookup (keys are unique by construction). -/
def getField : List (String × Json) → String → Option Json
  | [], _ => none
  | (k0, v) :: t, k => if k0 = k then some v else getField t k

/-- JSON insignificant whitespace. -/
def isJsonWs (c : Char) : Bool :=
  c = ' ' || c = '\t' || c = '\n' || c = '\r'

/-- Drop leading JSON whitespace. -/
def skipWs : List Char → List Char
  | [] => []
  | c :: cs => if isJsonWs c then skipWs cs else c :: cs

/-- Value of a hexadecimal digit, read off the character's code point. -/
def hexDigitVal (c : Char) : Option Nat :=
  let n := c.toNat
  if 48 ≤ n && n ≤ 57 then some (n - 48)
  else if 97 ≤ n && n ≤ 102 then some (n - 87)
  else if 65 ≤ n && n ≤ 70 then some (n - 55)
  else none

/-- The character denoted by a one-character JSON escape, when legal. -/
def escChar (c : Char) : Option Char :=
  if c = '"' then some '"'
  else if c = '\\' then some '\\'
  else if c = '/' then some '/'
  else if c = 'b' then some '\x08'
  else if c = 'f' then some '\x0c'
  else if c = 'n' then some '\n'
  else if c = 'r' then some '\r'
  else if c = 't' then some '\t'
  else none

/-- Parse the body of a JSON string after its opening quote; returns the
decoded characters and the input after the closing quote.  Raw control
characters are rejected, escape sequences are decoded. -/
def parseStringBody : Nat → List Char → Option (List Char × List Char)
  | 0, _ => none
  | _ + 1, [] => none
  | fuel + 1, c :: cs =>
    if c = '"' then some ([], cs)
    else if c = '\\' then
      match cs with
      | [] => none
      | e :: cs2 =>
        if e = 'u' then
          match cs2 with
          | h1 :: h2 :: h3 :: h4 :: cs3 =>
            match hexDigitVal h1, hexDigitVal h2, hexDigitVal h3, hexDigitVal h4 with
            | some a, some b, some c2, some d =>
              match parseStringBody fuel cs3 with
              | some (content, rest) =>
                some (Char.ofNat (4096 * a + 256 * b + 16 * c2 + d) :: content, rest)
              | none => none
            | _, _, _, _ => none
          | _ => none
        else
          match escChar e with
          | some r =>
            match parseStringBody fuel cs2 with
            | some (content, rest) => some (r :: content, rest)
            | none => none
          | none => none
    else if c.toNat < 32 then none
    else
      match parseStringBody fuel cs with
      | some (content, rest) => some (c :: content, rest)
      | none => none

/-- Whether `c` is an ASCII decimal digit. -/
def isDigitCh (c : Char) : Bool :=
  '0' ≤ c && c ≤ '9'

/-- Longest leading run of decimal digits. -/
def takeDigits : List Char → List Char × List Char
  | [] => ([], [])
  | c :: cs =>
    if isDigitCh c then
      match takeDigits cs with
      | (d, r) => (c :: d, r)
    else ([], c :: cs)

/-- Integer part of a JSON number after an optional sign: `0`, or a nonzero
digit followed by digits. -/
def parseIntPart : List Char → Option (List Char × List Char)
  | [] => none
  | c :: cs =>
    if c = '0' then some ([c], cs)
    else if isDigitCh c then
      match takeDigits cs with
      | (d, r) => some (c :: d, r)
    else none

/-- Optional fractional part: a dot must be followed by at least one digit. -/
def parseFracPart (cs : List Char) : Option (List Char × List Char) :=
  match cs with
  | '.' :: cs2 =>
    match takeDigits cs2 with
    | ([], _) => none
    | (d, r) => some ('.' :: d, r)
  | _ => some ([], cs)

/-- Optional exponent part: `e`/`E`, optional sign, at least one digit. -/
def parseExpPart (cs : List Char) : Option (List Char × List Char) :=
  match cs with
  | c :: cs2 =>
    if c = 'e' || c = 'E' then
      match cs2 with
      | s :: cs3 =>
        if s = '+' || s = '-' then
          match takeDigits cs3 with
          | ([], _) => none
          | (d, r) => some (c :: s :: d, r)
        else
          match takeDigits cs2 with
          | ([], _) => none
          | (d, r) => some (c :: d, r)
      | [] => none
    else some ([], c :: cs2)
  | [] => some ([], [])

/-- A JSON number starting at the head of the input; returns its lexeme. -/
def parseNumber (cs : List Char) : Option (List Char × List Char) :=
  match cs with
  | '-' :: cs2 =>
    match parseIntPart cs2 with
    | none => none
    | some (ip, r1) =>
      match parseFracPart r1 with
      | none => none
      | some (fp, r2) =>
        match parseExpPart r2 with
        | none => none
        | some (ep, r3) => some ('-' :: (ip ++ fp ++ ep), r3)
  | _ =>
    match parseIntPart cs with
    | none => none
    | some (ip, r1) =>
      match parseFracPart r1 with
      | none => none
      | some (fp, r2) =>
        match parseExpPart r2 with
        | none => none
        | some (ep, r3) => some (ip ++ fp ++ ep, r3)

mutual

/-- Parse one JSON value (after skipping leading whitespace). -/
def parseValue : Nat → List Char → Option (Json × List Char)
  | 0, _ => none
  | fuel + 1, cs0 =>
    match skipWs cs0 with
    | [] => none
    | c :: cs =>
      if c = '"' then
        match parseStringBody fuel cs with
        | some (content, rest) => some (Json.str (String.mk content), rest)
        | none => none
      else if c = '{' then parseFields fuel cs
      else if c = '[' then parseElems fuel cs
      else if c = 't' then
        match cs with
        | 'r' :: 'u' :: 'e' :: rest => some (Json.bool true, rest)
        | _ => none
      else if c = 'f' then
        match cs with
        | 'a' :: 'l' :: 's' :: 'e' :: rest => some (Json.bool false, rest)
        | _ => none
      else if c = 'n' then
        match cs with
        | 'u' :: 'l' :: 'l' :: rest => some (Json.null, rest)
        | _ => none
      else
        match parseNumber (c :: cs) with
        | some (lex, rest) => some (Json.num (String.mk lex), rest)
        | none => none

/-- Parse the elements of an array, after its opening bracket. -/
def parseElems : Nat → List Char → Option (Json × List Char)
  | 0, _ => none
  | fuel + 1, cs0 =>
    match skipWs cs0 with
    | [] => none
    | c :: cs =>
      if c = ']' then some (Json.arr [], cs)
      else
        match parseValue fuel (c :: cs) with
        | none => none
        | some (v, rest) => parseElemsRest fuel [v] rest

/-- Parse `, value`* `]` continuing an array whose earlier elements are
`acc`. -/
def parseElemsRest : Nat → List Json → List Char → Option (Json × List Char)
  | 0, _, _ => none
  | fuel + 1, acc, rest =>
    match skipWs rest with
    | ',' :: rest2 =>
      match parseValue fuel rest2 with
      | none => none
      | some (v, rest3) => parseElemsRest fuel (acc ++ [v]) rest3
    | ']' :: rest2 => some (Json.arr acc, rest2)
    | _ => none

/-- Parse the fields of an object, after its opening brace. -/
def parseFields : Nat → List Char → Option (Json × List Char)
  | 0, _ => none
  | fuel + 1, cs0 =>
    match skipWs cs0 with
    | [] => none
    | c :: cs =>
      if c = '}' then some (Json.obj [], cs)
      else if c = '"' then
        match parseStringBody fuel cs with
        | none => none
        | some (key, rest) =>
          match skipWs rest with
          | ':' :: rest2 =>
            match parseValue fuel rest2 with
            | none => none
            | some (v, rest3) =>
              parseFieldsRest fuel (insertField [] (String.mk key) v) rest3
          | _ => none
      else none

/-- Parse `, "key" : value`* and a closing brace, continuing an object whose
earlier fields are `acc`. -/
def parseFieldsRest : Nat → List (String × Json) → List Char → Option (Json × List Char)
  | 0, _, _ => none
  | fuel + 1, acc, rest =>
    match skipWs rest with
    | ',' :: rest2 =>
      match skipWs rest2 with
      | '"' :: rest3 =>
        match parseStringBody fuel rest3 with
        | none => none
        | some (key, rest4) =>
          match skipWs rest4 with
          | ':' :: rest5 =>
            match parseValue fuel rest5 with
            | none => none
            | some (v, rest6) =>
              parseFieldsRest fuel (insertField acc (String.mk key) v) rest6
          | _ => none
      | _ => none
    | '}' :: rest2 => some (Json.obj acc, rest2)
    | _ => none

end

/-- Model of Go `json.Unmarshal(bytes, target)` for an `interface` target:
one JSON value, with only whitespace allowed after it.  `none` is the error
case. -/
def jsonParse (s : String) : Option Json :=
  match parseValue (s.data.length + 1) s.data with
  | some (v, rest) => if (skipWs rest).isEmpty then some v else none
  | none => none

/-! ### Stream Reconstructor (proxy.go, `processStreamingResponse`) -/

/-- Model of `json.Unmarshal(bytes, chunkMap)` for a map target: the top
level must be an object, except that `null` succeeds and leaves the map
`nil`, which behaves exactly like an empty map under lookups. -/
def unmarshalMapStr (s : String) : Option (List (String × Json)) :=
  match jsonParse s with
  | some (Json.obj fields) => some fields
  | some Json.null => some []
  | _ => none

/-- Content contributed by one parsed chunk: from the first element of a
non-empty `choices` array, the `delta.content` string and then the
`message.content` string, each only when that exact shape is present. -/
def chunkContent (fields : List (String × Json)) : String :=
  match getField fields "choices" with
  | some (Json.arr (Json.obj choice :: _)) =>
    (match getField choice "delta" with
     | some (Json.obj delta) =>
       match getField delta "content" with
       | some (Json.str content) => content
       | _ => ""
     | _ => "") ++
    (match getField choice "message" with
     | some (Json.obj message) =>
       match getField message "content" with
       | some (Json.str content) => content
       | _ => ""
     | _ => "")
  | _ => ""

/-- What one iteration of the loop in `processStreamingResponse` appends to
`fullContent` for a given line. -/
def lineContribution (line : String) : String :=
  if goStartsWith line "data: " then
    if goTrimLeading line "data: " = "[DONE]" then ""
    else
      match unmarshalMapStr (goTrimLeading line "data: ") with
      | none => ""
      | some chunk => chunkContent chunk
  else ""

/-- The fixed result shape: a single-choice, single-message chat completion
carrying the accumulated content. -/
def streamShape (fullContent : String) : Json :=
  Json.obj [("choices", Json.arr [Json.obj [("message",
    Json.obj [("role", Json.str "assistant"), ("content", Json.str fullContent)])]])]

/-- proxy.go `processStreamingResponse`: split on newlines, accumulate the
content contributed by each `data: ` line in order, and wrap the result. -/
def processStreamingResponse (responseText : String) : Json :=
  streamShape (List.foldl (fun acc line => acc ++ lineContribution line) "" (goLines responseText))

/-! ### Log Sink (logger.go) -/

/-- logging.Entry, one Interaction Record.  Instants and durations are
abstract clock readings (`Nat`); the dynamic `RequestBody`/`Response`
interface values are `Json`, with Go's `nil` rendered as `Json.null`. -/
structure Entry where
  timestamp : Nat
  requestBody : Json
  response : Json
  duration : Nat
  path : String
  method : String
  correlationID : String

/-- State of an `os.File` handle as far as `Close` is concerned. -/
structure FileState where
  closed : Bool

/-- logging.FileLogger: `file` is `none` when the Go field is `nil`. -/
structure FileLogger where
  file : Option FileState

/-- `os.File.Close`: closes the handle; a second close fails (returns an
error, the `Bool`) and leaves the handle closed. -/
def osClose (f : FileState) : FileState × Bool :=
  if f.closed then (f, true) else ({ closed := true }, false)

/-- `FileLogger.Close`: closes the underlying file when present; an error
from the file close is only written to the local process log (the returned
message list).  Nothing is reported to the caller. -/
def FileLogger.Close (l : FileLogger) : FileLogger × List String :=
  match l.file with
  | none => (l, [])
  | some f =>
    match osClose f with
    | (f2, true) => ({ file := some f2 }, ["Error closing log file"])
    | (f2, false) => ({ file := some f2 }, [])

/-- `FileLogger.LogRequest`: serializes and appends the entry.  `writeOk`
abstracts whether encoding-and-writing to the destination succeeds; either
way the only output is a local process-log message, and no error reaches the
caller (the Go method returns nothing). -/
def FileLogger.LogRequest (writeOk : Bool) (e : Entry) : List String :=
  if writeOk then ["Logged " ++ e.method ++ " " ++ e.path]
  else ["Error encoding log entry"]

/-! ### Interception Transport and Gatekeeper (proxy.go) -/

/-- Response headers / request headers: ordered pairs of canonical header
name and value (Go canonicalizes names on both Set and Get, so we work with
canonical names throughout). -/
abbrev Headers := List (String × String)

/-- `http.Header.Get`: the first value bound to the name, or the empty
string when the header is absent. -/
def headerGet : Headers → String → String
  | [], _ => ""
  | (k, v) :: t, name => if k = name then v else headerGet t name

/-- Whether a header with the given name is present at all. -/
def headerHas : Headers → String → Bool
  | [], _ => false
  | (k, _) :: t, name => k = name || headerHas t name

/-- The four request-scoped context values installed by `ServeHTTP`; each is
`none` when the corresponding key is missing from the context. -/
structure CallContext where
  requestBody : Option Json
  path : Option String
  method : Option String
  startTime : Option Nat

/-- The outbound request as seen by `loggingTransport.RoundTrip`: its
context and the body bytes the reverse proxy forwards verbatim. -/
structure OutboundRequest where
  ctx : CallContext
  body : String

/-- An upstream `http.Response`.  `bodyRead` is the outcome of
`io.ReadAll(resp.Body)`: reading the body can fail after the round-trip
itself returned a response. -/
structure HttpResponse where
  status : Nat
  headers : Headers
  bodyRead : Except Unit String

/-- The response actually handed back to the reverse proxy (and so to the
client) after the body was re-installed: status, headers and body bytes. -/
structure ClientResponse where
  status : Nat
  headers : Headers
  body : String

/-- Outcome of `loggingTransport.RoundTrip`.  `panicked` is a failed type
assertion on a missing context value: the panic aborts the request (net/http
recovers it and kills the connection; the process survives).
`transportError` is a returned error, surfaced by the reverse proxy. -/
inductive RoundTripResult where
  | panicked
  | transportError
  | ok (resp : ClientResponse)

/-- Correlation-id extraction from upstream response headers, exactly as in
`RoundTrip`: `apim-request-id`, falling back to `x-ms-request-id` and then
`x-ms-correlation-request-id` whenever the value obtained so far is the
empty string. -/
def extractCorrelationID (hs : Headers) : String :=
  if headerGet hs "apim-request-id" = "" then
    if headerGet hs "x-ms-request-id" = "" then
      headerGet hs "x-ms-correlation-request-id"
    else headerGet hs "x-ms-request-id"
  else headerGet hs "apim-request-id"

/-- The logged response payload chosen by `RoundTrip`: the parsed JSON
value; otherwise the stream reconstruction whenever the raw bytes contain
the substring `data: ` anywhere; otherwise the raw bytes as text. -/
def parseResponsePayload (bodyBytes : String) : Json :=
  match jsonParse bodyBytes with
  | some v => v
  | none =>
    if goContains bodyBytes "data: " then processStreamingResponse bodyBytes
    else Json.str bodyBytes

/-- `loggingTransport.RoundTrip`.  `transport` is the wrapped
`http.RoundTripper` (`none` = transport-level error), `writeOk` abstracts
log-write success, `now` the clock at response-capture time.  Returns the
outcome, the Interaction Records handed to the Log Sink, and the local
process-log messages. -/
def RoundTrip (transport : OutboundRequest → Option HttpResponse) (writeOk : Bool)
    (now : Nat) (req : OutboundRequest) : RoundTripResult × List Entry × List String :=
  match req.ctx.path with
  | none => (.panicked, [], [])
  | some path =>
  match req.ctx.method with
  | none => (.panicked, [], [])
  | some method =>
  match req.ctx.startTime with
  | none => (.panicked, [], [])
  | some startTime =>
  match transport req with
  | none => (.transportError, [], [])
  | some resp =>
    match resp.bodyRead with
    | .error _ => (.transportError, [], [])
    | .ok bodyBytes =>
      let entry : Entry :=
        { timestamp := now
          requestBody := match req.ctx.requestBody with | some v => v | none => Json.null
          response := parseResponsePayload bodyBytes
          duration := now - startTime
          path := path
          method := method
          correlationID := extractCorrelationID resp.headers }
      (.ok { status := resp.status, headers := resp.headers, body := bodyBytes },
       [entry], FileLogger.LogRequest writeOk entry)

/-- An inbound client request as seen by `Server.ServeHTTP`: its headers,
path and method, and the outcome of `io.ReadAll(r.Body)`. -/
structure InboundRequest where
  headers : Headers
  path : String
  method : String
  bodyRead : Except Unit String

/-- Client-visible outcome of `Server.ServeHTTP`.  `unauthorized` is the 401
written by the auth gate, `internalError` the 500 on a request-body read
failure, `proxyError` the reverse proxy's error response after `RoundTrip`
returned an error, `panicked` an aborted connection after a panic. -/
inductive ServeResult where
  | unauthorized
  | internalError
  | proxyError
  | panicked
  | ok (resp : ClientResponse)

/-- The context value stored under `requestBodyKey`: the parsed JSON body,
or the raw bytes as a string when they do not parse. -/
def parseRequestBody (bodyBytes : String) : Json :=
  match jsonParse bodyBytes with
  | some v => v
  | none => Json.str bodyBytes

/-- The outbound request built from an inbound one: all four context values
are installed, and the captured body bytes are re-installed unchanged for
the reverse proxy to forward. -/
def makeOutbound (r : InboundRequest) (bodyBytes : String) (startTime : Nat) :
    OutboundRequest :=
  { ctx :=
      { requestBody := some (parseRequestBody bodyBytes)
        path := some r.path
        method := some r.method
        startTime := some startTime }
    body := bodyBytes }

/-- Body capture and forwarding, the part of `ServeHTTP` after the auth
gate.  The reverse proxy itself (httputil.ReverseProxy with the rewritten
Host) forwards the outbound request to the Interception Transport and
relays its outcome. -/
def forwardPhase (transport : OutboundRequest → Option HttpResponse) (writeOk : Bool)
    (startTime now : Nat) (r : InboundRequest) : ServeResult × List Entry × List String :=
  match r.bodyRead with
  | .error _ => (.internalError, [], [])
  | .ok bodyBytes =>
    match RoundTrip transport writeOk now (makeOutbound r bodyBytes startTime) with
    | (.panicked, es, ms) => (.panicked, es, ms)
    | (.transportError, es, ms) => (.proxyError, es, ms)
    | (.ok resp, es, ms) => (.ok resp, es, ms)

/-- `Server.ServeHTTP`: when an API key is configured, requests whose
`X-API-Key` header does not match are rejected with 401 before any other
work; otherwise the request is captured and forwarded. -/
def ServeHTTP (apiKey : String) (transport : OutboundRequest → Option HttpResponse)
    (writeOk : Bool) (startTime now : Nat) (r : InboundRequest) :
    ServeResult × List Entry × List String :=
  if apiKey = "" then forwardPhase transport writeOk startTime now r
  else if headerGet r.headers "X-API-Key" = apiKey then
    forwardPhase transport writeOk startTime now r
  else (.unauthorized, [], [])

/-! ### Spec-side definitions

These follow the wording of the specification's claims (not the source) and
are compared against the embedded code. -/

/-- The claim's chunked-event-stream marker: some line of the body begins
with the literal `data: `. -/
def specHasStreamMarker (s : String) : Bool :=
  (goLines s).any fun l => goStartsWith l "data: "

/-- Per-line contribution as the claim describes it: a line beginning with
`data: ` has that marker stripped; the sentinel `[DONE]` is skipped; a chunk
that does not parse as an object is skipped; a parsed chunk contributes the
first choice's content. -/
def specLineContent (line : String) : String :=
  if goStartsWith line "data: " then
    if goTrimLeading line "data: " = "[DONE]" then ""
    else
      match jsonParse (goTrimLeading line "data: ") with
      | some (Json.obj chunk) => chunkContent chunk
      | _ => ""
  else ""

/-- The claim's correlation id: the value of the first header, in priority
order, that is present at all — even when its value is empty. -/
def specCorrelationID (hs : Headers) : String :=
  if headerHas hs "apim-request-id" then headerGet hs "apim-request-id"
  else if headerHas hs "x-ms-request-id" then headerGet hs "x-ms-request-id"
  else if headerHas hs "x-ms-correlation-request-id" then
    headerGet hs "x-ms-correlation-request-id"
  else ""

/-- First header in the list, in order, bearing a non-empty value; empty
when none does. -/
def firstNonEmptyHeader : Headers → List String → String
  | _, [] => ""
  | hs, n :: t =>
    if headerGet hs n = "" then firstNonEmptyHeader hs t else headerGet hs n

/-! ### Helper lemmas -/

theorem strEmptyAppendLeft (s : String) : "" ++ s = s := by
  cases s
  rfl

theorem strAppendEmptyRight (s : String) : s ++ "" = s := by
  cases s with
  | mk d => exact congrArg String.mk (List.append_nil d)

theorem strAppendAssoc (a b c : String) : a ++ b ++ c = a ++ (b ++ c) := by
  cases a with
  | mk da =>
    cases b with
    | mk db =>
      cases c with
      | mk dc => exact congrArg String.mk (List.append_assoc da db dc)

theorem foldl_append_concatAll (f : String → String) :
    ∀ (ls : List String) (a : String),
      List.foldl (fun acc line => acc ++ f line) a ls = a ++ concatAll (ls.map f)
  | [], a => by
    rw [List.foldl_nil, List.map_nil]
    exact (strAppendEmptyRight a).symm
  | l :: t, a => by
    rw [List.foldl_cons, List.map_cons, foldl_append_concatAll f t (a ++ f l)]
    exact strAppendAssoc a (f l) (concatAll (t.map f))

/-- The reconstructor equals the shape-wrapped, order-preserving
concatenation of the per-line contributions. -/
theorem processStreamingResponse_eq (s : String) :
    processStreamingResponse s =
      streamShape (concatAll ((goLines s).map lineContribution)) := by
  unfold processStreamingResponse
  rw [foldl_append_concatAll, strEmptyAppendLeft]

/-- The loop body of the source and the claim's per-line description agree
on every line.  The only shape on which they could differ is a chunk that is
JSON `null` (Go decodes it into a nil map without error); both sides give it
an empty contribution. -/
theorem lineContribution_eq_spec (l : String) : lineContribution l = specLineContent l := by
  unfold lineContribution specLineContent unmarshalMapStr
  cases hs : goStartsWith l "data: " with
  | false => simp [hs]
  | true =>
    simp only [hs, if_true]
    cases hd : decide (goTrimLeading l "data: " = "[DONE]") with
    | true => simp [of_decide_eq_true hd]
    | false =>
      simp only [of_decide_eq_false hd, if_false]
      cases hj : jsonParse (goTrimLeading l "data: ") with
      | none => simp [hj]
      | some v =>
        cases v <;> simp [hj]
        rfl

theorem concatAll_all_empty (f : String → String) :
    ∀ ls : List String, (∀ l ∈ ls, f l = "") → concatAll (ls.map f) = ""
  | [], _ => rfl
  | l :: t, h => by
    rw [List.map_cons]
    show f l ++ concatAll (t.map f) = ""
    rw [h l (List.mem_cons_self l t),
        concatAll_all_empty f t (fun x hx => h x (List.mem_cons_of_mem l hx))]
    rfl

/-! ### Claim theorems -/

/-- Input of the spec's streaming example: two `data: ` content chunks
followed by the `[DONE]` sentinel and a trailing newline. -/
def c4Hello : String :=
  "data: \x7b\"choices\":[\x7b\"delta\":\x7b\"content\":\"Hel\"\x7d\x7d]\x7d\ndata: \x7b\"choices\":[\x7b\"delta\":\x7b\"content\":\"lo\"\x7d\x7d]\x7d\ndata: [DONE]\n"

/-- C4: the Stream Reconstructor splits its input into lines and, in line
order, accumulates for each `data: ` line the stripped line's contribution —
skipping `[DONE]`, skipping chunks that do not parse as objects, and taking
the first choice's `delta.content` and/or `message.content` strings — and
the spec's example input reconstructs to a payload with message content
`"Hello"`. -/
theorem processStreamingResponse_spec :
    (∀ s : String, processStreamingResponse s =
        streamShape (concatAll ((goLines s).map specLineContent))) ∧
    processStreamingResponse c4Hello = streamShape "Hello" := by
  constructor
  · intro s
    rw [processStreamingResponse_eq, funext lineContribution_eq_spec]
  · rfl

def c9Logger : FileLogger :=
  { file := some { closed := false } }

/-- C9 counterexample: on a freshly opened logger the first `Close` closes
the handle silently, but the second `Close` is not effect-free — the
underlying file close fails (the handle is already closed) and the failure
is written to the local process log, an effect the first call did not
produce.  So the claim's "causes no further effect beyond the first call"
fails, even though the state is unchanged. -/
theorem close_second_call_logs_error :
    (FileLogger.Close c9Logger).2 = [] ∧
    (FileLogger.Close (FileLogger.Close c9Logger).1).2 = ["Error closing log file"] ∧
    (["Error closing log file"] : List String) ≠ [] :=
  ⟨rfl, rfl, by decide⟩

/-- C9 (amended): a second `Close` on an already-closed Log Sink is
idempotent on the sink's state — it leaves the `FileLogger` in exactly the
state the first `Close` produced, and the underlying handle stays closed —
but it is not entirely effect-free: whenever a handle is present, the second
call's failed file close is reported to the local process log
(`Error closing log file`); nothing is propagated to the caller either
way. -/
theorem FileLogger_Close_idempotent (l : FileLogger) :
    (FileLogger.Close (FileLogger.Close l).1).1 = (FileLogger.Close l).1 ∧
    (FileLogger.Close (FileLogger.Close l).1).2 =
      (match l.file with
       | none => []
       | some _ => ["Error closing log file"]) := by
  cases l with
  | mk file =>
    cases file with
    | none => exact ⟨rfl, rfl⟩
    | some f =>
      cases f with
      | mk closed => cases closed <;> exact ⟨rfl, rfl⟩

/-- C10: the Stream Reconstructor is total and always returns a value of the
fixed single-choice assistant-message shape; it never returns the raw input
as text, and when no line contributes any content the accumulated content is
the empty string. -/
theorem processStreamingResponse_total_shape :
    (∀ s : String, ∃ c : String, processStreamingResponse s = streamShape c) ∧
    (∀ s t : String, processStreamingResponse s ≠ Json.str t) ∧
    (∀ s : String, (∀ l ∈ goLines s, lineContribution l = "") →
      processStreamingResponse s = streamShape "") := by
  refine ⟨fun s => ⟨_, processStreamingResponse_eq s⟩, fun s t h => ?_, fun s h => ?_⟩
  · rw [processStreamingResponse_eq] at h
    unfold streamShape at h
    exact Json.noConfusion h
  · rw [processStreamingResponse_eq, concatAll_all_empty lineContribution (goLines s) h]

/-- Witness for C10 at a concrete input none of whose lines carries the
`data: ` marker. -/
theorem processStreamingResponse_total_shape_witness :
    processStreamingResponse "hello\nworld" = streamShape "" :=
  processStreamingResponse_total_shape.2.2 "hello\nworld" (by decide)

theorem RoundTrip_writeOk_indep (t : OutboundRequest → Option HttpResponse)
    (now : Nat) (req : OutboundRequest) (w w' : Bool) :
    (RoundTrip t w now req).1 = (RoundTrip t w' now req).1 ∧
    (RoundTrip t w now req).2.1 = (RoundTrip t w' now req).2.1 := by
  unfold RoundTrip
  cases hp : req.ctx.path with
  | none => exact ⟨rfl, rfl⟩
  | some p =>
    cases hm : req.ctx.method with
    | none => exact ⟨rfl, rfl⟩
    | some m =>
      cases hst : req.ctx.startTime with
      | none => exact ⟨rfl, rfl⟩
      | some st =>
        cases ht : t req with
        | none => exact ⟨rfl, rfl⟩
        | some resp =>
          dsimp only
          cases hb : resp.bodyRead with
          | error e => exact ⟨rfl, rfl⟩
          | ok bytes => exact ⟨rfl, rfl⟩

theorem forwardPhase_writeOk_indep (t : OutboundRequest → Option HttpResponse)
    (st now : Nat) (r : InboundRequest) (w w' : Bool) :
    (forwardPhase t w st now r).1 = (forwardPhase t w' st now r).1 ∧
    (forwardPhase t w st now r).2.1 = (forwardPhase t w' st now r).2.1 := by
  unfold forwardPhase
  cases hb : r.bodyRead with
  | error e => exact ⟨rfl, rfl⟩
  | ok bytes =>
    dsimp only
    obtain ⟨h1, h2⟩ := RoundTrip_writeOk_indep t now (makeOutbound r bytes st) w w'
    rcases hA : RoundTrip t w now (makeOutbound r bytes st) with ⟨a, es, ms⟩
    rcases hB : RoundTrip t w' now (makeOutbound r bytes st) with ⟨a', es', ms'⟩
    rw [hA, hB] at h1 h2
    dsimp only at h1 h2
    cases h1
    cases h2
    cases a <;> exact ⟨rfl, rfl⟩

/-- C5: with a non-empty configured key, a request whose `X-API-Key` header
differs from it (in particular, is missing, since a missing header reads as
the empty string) is answered with 401 and nothing else happens — no
forwarding through any transport, no record, no local log, no context
work.  With no configured key, every request goes straight to the
capture-and-forward phase, whatever its headers. -/
theorem serveHTTP_auth_gate (apiKey : String) (r : InboundRequest) :
    (apiKey ≠ "" → headerGet r.headers "X-API-Key" ≠ apiKey →
      ∀ (t : OutboundRequest → Option HttpResponse) (w : Bool) (st now : Nat),
        ServeHTTP apiKey t w st now r = (.unauthorized, [], [])) ∧
    (∀ (t : OutboundRequest → Option HttpResponse) (w : Bool) (st now : Nat),
      ServeHTTP "" t w st now r = forwardPhase t w st now r) := by
  constructor
  · intro hk hh t w st now
    unfold ServeHTTP
    rw [if_neg hk, if_neg hh]
  · intro t w st now
    unfold ServeHTTP
    rw [if_pos rfl]

def w5Req : InboundRequest :=
  { headers := [("X-API-Key", "wrong")], path := "/w5", method := "GET", bodyRead := .ok "" }

def w5T : OutboundRequest → Option HttpResponse := fun _ => none

/-- Witness for C5: configured key `secret`, offered key `wrong`. -/
theorem serveHTTP_auth_gate_witness :
    ServeHTTP "secret" w5T true 0 0 w5Req = (.unauthorized, [], []) :=
  (serveHTTP_auth_gate "secret" w5Req).1 (by decide) (by decide) w5T true 0 0

/-- C6: the client-visible outcome (in particular the status, headers and
body bytes of a successful exchange) and the Interaction Records themselves
are identical whether the Log Sink write succeeds or fails; a failed write
only produces the local process-log message. -/
theorem log_failure_not_propagated (apiKey : String)
    (t : OutboundRequest → Option HttpResponse) (st now : Nat)
    (r : InboundRequest) (w w' : Bool) :
    (ServeHTTP apiKey t w st now r).1 = (ServeHTTP apiKey t w' st now r).1 ∧
    (ServeHTTP apiKey t w st now r).2.1 = (ServeHTTP apiKey t w' st now r).2.1 ∧
    ∀ e : Entry, FileLogger.LogRequest false e = ["Error encoding log entry"] := by
  have h := forwardPhase_writeOk_indep t st now r w w'
  unfold ServeHTTP
  by_cases hk : apiKey = ""
  · simp only [if_pos hk]
    exact ⟨h.1, h.2, fun e => rfl⟩
  · simp only [if_neg hk]
    by_cases hh : headerGet r.headers "X-API-Key" = apiKey
    · simp only [if_pos hh]
      exact ⟨h.1, h.2, fun e => rfl⟩
    · simp only [if_neg hh]
      exact ⟨trivial, trivial, fun e => rfl⟩

theorem RoundTrip_ok_parts (t : OutboundRequest → Option HttpResponse) (w : Bool)
    (now : Nat) (req : OutboundRequest) (p m : String) (st : Nat)
    (resp : HttpResponse) (bytes : String)
    (hp : req.ctx.path = some p) (hm : req.ctx.method = some m)
    (hst : req.ctx.startTime = some st)
    (ht : t req = some resp) (hb : resp.bodyRead = .ok bytes) :
    (RoundTrip t w now req).1 =
      .ok { status := resp.status, headers := resp.headers, body := bytes } ∧
    (RoundTrip t w now req).2.1.map Entry.response = [parseResponsePayload bytes] ∧
    (RoundTrip t w now req).2.1.map Entry.correlationID = [extractCorrelationID resp.headers] ∧
    (RoundTrip t w now req).2.1.map Entry.requestBody =
      [(match req.ctx.requestBody with | some v => v | none => Json.null)] ∧
    (RoundTrip t w now req).2.1 ≠ [] := by
  unfold RoundTrip
  rw [hp, hm, hst, ht]
  dsimp only
  rw [hb]
  dsimp only
  exact ⟨rfl, rfl, rfl, rfl, fun hx => List.noConfusion hx⟩

theorem RoundTrip_transport_error_eq (t : OutboundRequest → Option HttpResponse)
    (w : Bool) (now : Nat) (req : OutboundRequest) (p m : String) (st : Nat)
    (hp : req.ctx.path = some p) (hm : req.ctx.method = some m)
    (hst : req.ctx.startTime = some st) (ht : t req = none) :
    RoundTrip t w now req = (.transportError, [], []) := by
  unfold RoundTrip
  rw [hp, hm, hst, ht]

theorem RoundTrip_read_error_eq (t : OutboundRequest → Option HttpResponse)
    (w : Bool) (now : Nat) (req : OutboundRequest) (p m : String) (st : Nat)
    (resp : HttpResponse)
    (hp : req.ctx.path = some p) (hm : req.ctx.method = some m)
    (hst : req.ctx.startTime = some st)
    (ht : t req = some resp) (hb : resp.bodyRead = .error ()) :
    RoundTrip t w now req = (.transportError, [], []) := by
  unfold RoundTrip
  rw [hp, hm, hst, ht]
  dsimp only
  rw [hb]

def c2Req : OutboundRequest :=
  { ctx := { requestBody := some (Json.str "q"), path := some "/c2", method := some "POST",
             startTime := some 1 }
    body := "q" }

def c2Resp : HttpResponse :=
  { status := 200, headers := [], bodyRead := .error () }

def c2T : OutboundRequest → Option HttpResponse := fun _ => some c2Resp

/-- C2 counterexample: the upstream round-trip returns a response (status
200), yet no Interaction Record is emitted and the caller sees an error —
the claim's "record if and only if a response is returned" fails when
reading the returned response's body fails. -/
theorem record_missing_despite_upstream_response :
    c2T c2Req = some c2Resp ∧ RoundTrip c2T true 7 c2Req = (.transportError, [], []) :=
  ⟨rfl, rfl⟩

/-- C2 (amended): for a request with a complete Call Context, an Interaction
Record is emitted iff the round-trip returns a response AND that response's
body is read successfully; a transport-level failure is propagated with no
record, and on emission the caller receives the response (any HTTP
status). -/
theorem record_emitted_iff_upstream_response_read
    (t : OutboundRequest → Option HttpResponse) (w : Bool) (now : Nat)
    (req : OutboundRequest) (p m : String) (st : Nat)
    (hp : req.ctx.path = some p) (hm : req.ctx.method = some m)
    (hst : req.ctx.startTime = some st) :
    ((RoundTrip t w now req).2.1 ≠ [] ↔
      ∃ resp bytes, t req = some resp ∧ resp.bodyRead = .ok bytes) ∧
    (t req = none → RoundTrip t w now req = (.transportError, [], [])) ∧
    (∀ resp bytes, t req = some resp → resp.bodyRead = .ok bytes →
      (RoundTrip t w now req).1 =
        .ok { status := resp.status, headers := resp.headers, body := bytes }) := by
  refine ⟨⟨fun hne => ?_, fun hex => ?_⟩,
    fun ht => RoundTrip_transport_error_eq t w now req p m st hp hm hst ht,
    fun resp bytes ht hb =>
      (RoundTrip_ok_parts t w now req p m st resp bytes hp hm hst ht hb).1⟩
  · cases ht : t req with
    | none =>
      exact absurd (congrArg (fun x => x.2.1)
        (RoundTrip_transport_error_eq t w now req p m st hp hm hst ht)) hne
    | some resp =>
      cases hb : resp.bodyRead with
      | error e =>
        exact absurd (congrArg (fun x => x.2.1)
          (RoundTrip_read_error_eq t w now req p m st resp hp hm hst ht hb)) hne
      | ok bytes => exact ⟨resp, bytes, rfl, hb⟩
  · obtain ⟨resp, bytes, ht, hb⟩ := hex
    exact (RoundTrip_ok_parts t w now req p m st resp bytes hp hm hst ht hb).2.2.2.2

def w2Req : OutboundRequest :=
  { ctx := { requestBody := some Json.null, path := some "/w2", method := some "GET",
             startTime := some 2 }
    body := "" }

def w2Resp : HttpResponse :=
  { status := 404, headers := [], bodyRead := .ok "nf" }

def w2T : OutboundRequest → Option HttpResponse := fun _ => some w2Resp

/-- Witness for C2 at a concrete 404 exchange. -/
theorem record_emitted_iff_upstream_response_read_witness :
    (RoundTrip w2T true 9 w2Req).1 = .ok { status := 404, headers := [], body := "nf" } :=
  (record_emitted_iff_upstream_response_read w2T true 9 w2Req "/w2" "GET" 2
    rfl rfl rfl).2.2 w2Resp "nf" rfl rfl

def c3Req : OutboundRequest :=
  { ctx := { requestBody := some Json.null, path := some "/c3", method := some "POST",
             startTime := some 0 }
    body := "b" }

def c3Resp : HttpResponse :=
  { status := 200, headers := [], bodyRead := .ok "x data: y" }

def c3T : OutboundRequest → Option HttpResponse := fun _ => some c3Resp

/-- C3 counterexample: the body `x data: y` does not parse as JSON and no
line of it begins with `data: `, so the claim requires the raw bytes to be
logged as text; the code instead finds the substring `data: ` and logs the
Stream Reconstructor's (empty) result. -/
theorem response_payload_marker_counterexample :
    jsonParse "x data: y" = none ∧
    specHasStreamMarker "x data: y" = false ∧
    (RoundTrip c3T true 3 c3Req).2.1.map Entry.response = [streamShape ""] ∧
    streamShape "" ≠ Json.str "x data: y" := by
  refine ⟨rfl, rfl, rfl, fun h => ?_⟩
  unfold streamShape at h
  exact Json.noConfusion h

/-- C3 (amended): for every captured upstream body, the logged payload is
the parsed JSON value when parsing succeeds; when parsing fails it is the
Stream Reconstructor's result whenever the body contains the substring
`data: ` anywhere (not only at the start of a line), and the raw bytes as
text otherwise. -/
theorem response_payload_selection
    (t : OutboundRequest → Option HttpResponse) (w : Bool) (now : Nat)
    (req : OutboundRequest) (p m : String) (st : Nat)
    (resp : HttpResponse) (bytes : String)
    (hp : req.ctx.path = some p) (hm : req.ctx.method = some m)
    (hst : req.ctx.startTime = some st)
    (ht : t req = some resp) (hb : resp.bodyRead = .ok bytes) :
    (RoundTrip t w now req).2.1.map Entry.response = [parseResponsePayload bytes] ∧
    (∀ v, jsonParse bytes = some v → parseResponsePayload bytes = v) ∧
    (jsonParse bytes = none → goContains bytes "data: " = true →
      parseResponsePayload bytes = processStreamingResponse bytes) ∧
    (jsonParse bytes = none → goContains bytes "data: " = false →
      parseResponsePayload bytes = Json.str bytes) := by
  refine ⟨(RoundTrip_ok_parts t w now req p m st resp bytes hp hm hst ht hb).2.1,
    fun v hv => ?_, fun hn hc => ?_, fun hn hc => ?_⟩
  · unfold parseResponsePayload
    rw [hv]
  · unfold parseResponsePayload
    rw [hn]
    dsimp only
    rw [hc, if_pos rfl]
  · unfold parseResponsePayload
    rw [hn]
    dsimp only
    rw [hc, if_neg (fun hx => Bool.noConfusion hx)]

def w3Req : OutboundRequest :=
  { ctx := { requestBody := some (Json.obj []), path := some "/w3", method := some "POST",
             startTime := some 3 }
    body := "\x7b\x7d" }

def w3Resp : HttpResponse :=
  { status := 200, headers := [], bodyRead := .ok "plain text" }

def w3T : OutboundRequest → Option HttpResponse := fun _ => some w3Resp

/-- Witness for C3 at a concrete exchange whose upstream body is plain
text. -/
theorem response_payload_selection_witness :
    (RoundTrip w3T true 8 w3Req).2.1.map Entry.response = [parseResponsePayload "plain text"] :=
  (response_payload_selection w3T true 8 w3Req "/w3" "POST" 3 w3Resp "plain text"
    rfl rfl rfl rfl rfl).1

def c7Hs : Headers := [("apim-request-id", ""), ("x-ms-request-id", "abc")]

def c7Req : OutboundRequest :=
  { ctx := { requestBody := some Json.null, path := some "/c7", method := some "GET",
             startTime := some 0 }
    body := "" }

def c7Resp : HttpResponse :=
  { status := 502, headers := c7Hs, bodyRead := .ok "" }

def c7T : OutboundRequest → Option HttpResponse := fun _ => some c7Resp

/-- C7 counterexample: the primary header `apim-request-id` is present but
carries an empty value.  It is the first present header, so the claim calls
for an empty correlation id, but the code skips the empty value and records
the first fallback header's value instead. -/
theorem correlation_empty_primary_counterexample :
    headerHas c7Hs "apim-request-id" = true ∧
    specCorrelationID c7Hs = "" ∧
    (RoundTrip c7T true 2 c7Req).2.1.map Entry.correlationID = ["abc"] ∧
    ("abc" : String) ≠ "" := by
  exact ⟨rfl, rfl, rfl, by decide⟩

/-- C7 (amended): the record's correlation id is the value of the first of
`apim-request-id`, `x-ms-request-id`, `x-ms-correlation-request-id` (in that
priority order) whose value is non-empty; when none has a non-empty value —
in particular when all three are absent — the field is empty.  A header
present with an empty value is treated exactly like an absent one. -/
theorem correlationID_first_nonempty
    (t : OutboundRequest → Option HttpResponse) (w : Bool) (now : Nat)
    (req : OutboundRequest) (p m : String) (st : Nat)
    (resp : HttpResponse) (bytes : String)
    (hp : req.ctx.path = some p) (hm : req.ctx.method = some m)
    (hst : req.ctx.startTime = some st)
    (ht : t req = some resp) (hb : resp.bodyRead = .ok bytes) :
    (RoundTrip t w now req).2.1.map Entry.correlationID =
      [firstNonEmptyHeader resp.headers
        ["apim-request-id", "x-ms-request-id", "x-ms-correlation-request-id"]] ∧
    (∀ hs : Headers, extractCorrelationID hs =
      firstNonEmptyHeader hs
        ["apim-request-id", "x-ms-request-id", "x-ms-correlation-request-id"]) := by
  have hgen : ∀ hs : Headers, extractCorrelationID hs =
      firstNonEmptyHeader hs
        ["apim-request-id", "x-ms-request-id", "x-ms-correlation-request-id"] := by
    intro hs
    by_cases h1 : headerGet hs "apim-request-id" = ""
    · by_cases h2 : headerGet hs "x-ms-request-id" = ""
      · by_cases h3 : headerGet hs "x-ms-correlation-request-id" = ""
        · simp [extractCorrelationID, firstNonEmptyHeader, h1, h2, h3]
        · simp [extractCorrelationID, firstNonEmptyHeader, h1, h2, h3]
      · simp [extractCorrelationID, firstNonEmptyHeader, h1, h2]
    · simp [extractCorrelationID, firstNonEmptyHeader, h1]
  refine ⟨?_, hgen⟩
  rw [(RoundTrip_ok_parts t w now req p m st resp bytes hp hm hst ht hb).2.2.1, hgen]

def w7Req : OutboundRequest :=
  { ctx := { requestBody := some Json.null, path := some "/w7", method := some "GET",
             startTime := some 1 }
    body := "" }

def w7Resp : HttpResponse :=
  { status := 200, headers := [("x-ms-correlation-request-id", "z9")], bodyRead := .ok "done" }

def w7T : OutboundRequest → Option HttpResponse := fun _ => some w7Resp

/-- Witness for C7 at a concrete exchange where only the second fallback
header is present. -/
theorem correlationID_first_nonempty_witness :
    (RoundTrip w7T true 5 w7Req).2.1.map Entry.correlationID =
      [firstNonEmptyHeader w7Resp.headers
        ["apim-request-id", "x-ms-request-id", "x-ms-correlation-request-id"]] :=
  (correlationID_first_nonempty w7T true 5 w7Req "/w7" "GET" 1 w7Resp "done"
    rfl rfl rfl rfl rfl).1

def c8Req : OutboundRequest :=
  { ctx := { requestBody := none, path := some "/c8", method := some "GET",
             startTime := some 0 }
    body := "" }

def c8Resp : HttpResponse :=
  { status := 200, headers := [], bodyRead := .ok "ok" }

def c8T : OutboundRequest → Option HttpResponse := fun _ => some c8Resp

/-- C8 counterexample: with the request body absent from the Call Context
(all other fields present) the transport does not fail the request — the
exchange completes normally and the record is emitted with a null request
body, i.e. this absence is silently tolerated, contrary to the claim. -/
theorem requestBody_absence_tolerated :
    c8Req.ctx.requestBody = none ∧
    (RoundTrip c8T true 6 c8Req).1 = .ok { status := 200, headers := [], body := "ok" } ∧
    (RoundTrip c8T true 6 c8Req).2.1.map Entry.requestBody = [Json.null] :=
  ⟨rfl, rfl, rfl⟩

/-- C8 (amended): when the path, method or start time is absent from the
request context, the failed type assertion panics: the request fails (the
server runtime recovers the panic, so the process survives), no record is
emitted and no response is produced.  The request-body value, read without a
type assertion, is exempt: its absence is tolerated. -/
theorem roundTrip_missing_context
    (t : OutboundRequest → Option HttpResponse) (w : Bool) (now : Nat)
    (req : OutboundRequest)
    (h : req.ctx.path = none ∨ req.ctx.method = none ∨ req.ctx.startTime = none) :
    RoundTrip t w now req = (.panicked, [], []) := by
  cases hp : req.ctx.path with
  | none =>
    unfold RoundTrip
    rw [hp]
  | some p =>
    cases hm : req.ctx.method with
    | none =>
      unfold RoundTrip
      rw [hp]
      dsimp only
      rw [hm]
    | some m =>
      cases hst : req.ctx.startTime with
      | none =>
        unfold RoundTrip
        rw [hp]
        dsimp only
        rw [hm]
        dsimp only
        rw [hst]
      | some st =>
        exfalso
        rcases h with h | h | h
        · rw [hp] at h
          exact Option.noConfusion h
        · rw [hm] at h
          exact Option.noConfusion h
        · rw [hst] at h
          exact Option.noConfusion h

def w8Req : OutboundRequest :=
  { ctx := { requestBody := some Json.null, path := none, method := some "GET",
             startTime := some 0 }
    body := "" }

def w8T : OutboundRequest → Option HttpResponse :=
  fun _ => some { status := 200, headers := [], bodyRead := .ok "" }

/-- Witness for C8 at a context missing its path. -/
theorem roundTrip_missing_context_witness :
    RoundTrip w8T true 0 w8Req = (.panicked, [], []) :=
  roundTrip_missing_context w8T true 0 w8Req (Or.inl rfl)

def c1Req : InboundRequest :=
  { headers := [], path := "/c1", method := "POST", bodyRead := .ok "hello" }

def c1Resp : HttpResponse :=
  { status := 200, headers := [("k", "v")], bodyRead := .error () }

def c1T : OutboundRequest → Option HttpResponse := fun _ => some c1Resp

/-- C1 counterexample: authentication passes (no key configured), the
inbound body reads fine, and the upstream round-trip returns a response —
yet the client receives the reverse proxy's error response, not the upstream
status/headers/body, because reading the upstream response body failed. -/
theorem upstream_response_not_delivered_on_read_error :
    c1T (makeOutbound c1Req "hello" 0) = some c1Resp ∧
    (ServeHTTP "" c1T true 0 1 c1Req).1 = .proxyError :=
  ⟨rfl, rfl⟩

/-- C1 (amended): when authentication passes, the inbound body is read
successfully, the round-trip returns a response AND that response's body is
also read successfully, the byte string handed to the upstream transport is
exactly the client's body, and the client receives exactly the upstream
status, headers and body bytes — whatever the outcome of log emission. -/
theorem serveHTTP_forwarding_byte_preserving
    (apiKey : String) (t : OutboundRequest → Option HttpResponse) (w : Bool)
    (st now : Nat) (r : InboundRequest) (bytes respBytes : String) (resp : HttpResponse)
    (hauth : apiKey = "" ∨ headerGet r.headers "X-API-Key" = apiKey)
    (hbody : r.bodyRead = .ok bytes)
    (hup : t (makeOutbound r bytes st) = some resp)
    (hread : resp.bodyRead = .ok respBytes) :
    (makeOutbound r bytes st).body = bytes ∧
    (ServeHTTP apiKey t w st now r).1 =
      .ok { status := resp.status, headers := resp.headers, body := respBytes } := by
  refine ⟨rfl, ?_⟩
  have h1 := (RoundTrip_ok_parts t w now (makeOutbound r bytes st) r.path r.method st
    resp respBytes rfl rfl rfl hup hread).1
  have hfwd : (forwardPhase t w st now r).1 =
      .ok { status := resp.status, headers := resp.headers, body := respBytes } := by
    unfold forwardPhase
    rw [hbody]
    dsimp only
    rcases hA : RoundTrip t w now (makeOutbound r bytes st) with ⟨a, es, ms⟩
    rw [hA] at h1
    dsimp only at h1
    cases h1
    rfl
  rcases hauth with hk | hh
  · unfold ServeHTTP
    rw [if_pos hk]
    exact hfwd
  · by_cases hk : apiKey = ""
    · unfold ServeHTTP
      rw [if_pos hk]
      exact hfwd
    · unfold ServeHTTP
      rw [if_neg hk, if_pos hh]
      exact hfwd

def w1Req : InboundRequest :=
  { headers := [("X-API-Key", "k")], path := "/w1", method := "POST", bodyRead := .ok "rb" }

def w1Resp : HttpResponse :=
  { status := 201, headers := [("a", "b")], bodyRead := .ok "out" }

def w1T : OutboundRequest → Option HttpResponse := fun _ => some w1Resp

/-- Witness for C1 at a concrete authenticated exchange. -/
theorem serveHTTP_forwarding_byte_preserving_witness :
    (makeOutbound w1Req "rb" 2).body = "rb" ∧
    (ServeHTTP "k" w1T true 2 5 w1Req).1 =
      .ok { status := 201, headers := [("a", "b")], body := "out" } :=
  serveHTTP_forwarding_byte_preserving "k" w1T true 2 5 w1Req "rb" "out" w1Resp
    (Or.inr rfl) rfl rfl rfl
